import Mathlib

/-!
Shallow embedding of the CustomVideoRenderer media sink
(src/CustomVideoRenderer/CustomVideoRenderer.cpp, the snapshot around lines
2890-5400: `CustomVideoStreamSink` and `CustomVideoRenderer`).

External Media Foundation / D3D collaborators (event-queue primitive,
MFScheduleWorkItem, MFCreateMediaType, the D3D device) are modelled as
succeeding; everything the claims are about (state machine, validation
matrix, counters, event queue contents, format tables) is translated
directly from the source.
-/

/-- HRESULT values that occur in the modelled code. `S_OK` is the only
success code the code produces. -/
inductive HResult where
  | S_OK
  | E_FAIL
  | E_POINTER
  | MF_E_SHUTDOWN
  | MF_E_INVALIDREQUEST
  | MF_E_INVALIDMEDIATYPE
  | MF_E_NOT_INITIALIZED
  | MF_E_NO_MORE_TYPES
  | MF_E_INVALIDSTREAMNUMBER
  | MF_E_INVALIDINDEX
  | MF_E_STREAMSINKS_FIXED
  | MF_E_ATTRIBUTENOTFOUND
deriving DecidableEq, Repr

/-- C macro SUCCEEDED(hr): hr >= 0; of the codes above only S_OK is
non-negative. -/
def SUCCEEDED : HResult → Bool
  | .S_OK => true
  | _ => false

/-- C macro FAILED(hr). -/
def FAILED (hr : HResult) : Bool := !(SUCCEEDED hr)

/-- State enum of the stream sink (source lines 2953-2963). -/
inductive State where
  | State_TypeNotSet
  | State_Ready
  | State_Started
  | State_Paused
  | State_Stopped
deriving DecidableEq, Repr

/-- StreamOperation enum (source lines 2967-2978). -/
inductive StreamOperation where
  | OpSetMediaType
  | OpStart
  | OpRestart
  | OpPause
  | OpStop
  | OpProcessSample
  | OpPlaceMarker
deriving DecidableEq, Repr

/-- The BOOL ValidStateMatrix[State_Count][Op_Count] table (source lines
2980-3005), row by row. Column order: SetType, Start, Restart, Pause,
Stop, Sample, Marker. -/
def ValidStateMatrix : State → StreamOperation → Bool
  | .State_TypeNotSet, op =>
      match op with
      | .OpSetMediaType => true
      | .OpStart => false
      | .OpRestart => false
      | .OpPause => false
      | .OpStop => false
      | .OpProcessSample => false
      | .OpPlaceMarker => false
  | .State_Ready, op =>
      match op with
      | .OpSetMediaType => true
      | .OpStart => true
      | .OpRestart => true
      | .OpPause => true
      | .OpStop => true
      | .OpProcessSample => false
      | .OpPlaceMarker => true
  | .State_Started, op =>
      match op with
      | .OpSetMediaType => true
      | .OpStart => true
      | .OpRestart => false
      | .OpPause => true
      | .OpStop => true
      | .OpProcessSample => true
      | .OpPlaceMarker => true
  | .State_Paused, op =>
      match op with
      | .OpSetMediaType => true
      | .OpStart => true
      | .OpRestart => true
      | .OpPause => true
      | .OpStop => true
      | .OpProcessSample => true
      | .OpPlaceMarker => true
  | .State_Stopped, op =>
      match op with
      | .OpSetMediaType => true
      | .OpStart => true
      | .OpRestart => false
      | .OpPause => false
      | .OpStop => true
      | .OpProcessSample => false
      | .OpPlaceMarker => true

/-- ValidateOperation (source lines 3212-3226): pure lookup in the matrix,
returning S_OK or MF_E_INVALIDREQUEST. -/
def ValidateOperation (state : State) (op : StreamOperation) : HResult :=
  if ValidStateMatrix state op then .S_OK else .MF_E_INVALIDREQUEST

/-- The video subtype GUIDs that occur in `s_pVideoFormats` and
`s_DXGIFormatMapping`. `F420O` stands for MFVideoFormat_420O (Lean names
cannot start with a digit). -/
inductive VideoSubtype where
  | NV12
  | IYUV
  | YUY2
  | YV12
  | RGB32
  | RGB24
  | RGB555
  | RGB565
  | RGB8
  | AYUV
  | UYVY
  | YVYU
  | YVU9
  | V216
  | v410
  | I420
  | NV11
  | F420O
  | ARGB32
  | AI44
  | P010
  | P016
  | Y210
  | Y216
  | Y410
  | Y416
deriving DecidableEq, Repr

/-- s_pVideoFormats (source lines 2902-2923): the 19-entry supported-format
catalog. RGB32 genuinely appears twice in the source array. -/
def s_pVideoFormats : List VideoSubtype :=
  [ .NV12, .IYUV, .YUY2, .YV12, .RGB32, .RGB32, .RGB24, .RGB555, .RGB565,
    .RGB8, .AYUV, .UYVY, .YVYU, .YVU9, .V216, .v410, .I420, .NV11, .F420O ]

/-- s_dwNumVideoFormats (source line 2925). -/
def s_dwNumVideoFormats : Nat := s_pVideoFormats.length

/-- DXGI_FORMAT values occurring in s_DXGIFormatMapping, plus UNKNOWN
(the initial value of m_dxgiFormat). -/
inductive DXGIFormat where
  | UNKNOWN
  | B8G8R8X8_UNORM
  | R8G8B8A8_UNORM
  | AYUV
  | YUY2
  | NV12
  | NV11
  | AI44
  | P010
  | P016
  | Y210
  | Y216
  | Y410
  | Y416
  | OPAQUE_420
deriving DecidableEq, Repr

/-- s_DXGIFormatMapping (source lines 2932-2949): subtype to display-surface
format. -/
def s_DXGIFormatMapping : List (VideoSubtype × DXGIFormat) :=
  [ (.RGB32, .B8G8R8X8_UNORM), (.ARGB32, .R8G8B8A8_UNORM), (.AYUV, .AYUV),
    (.YUY2, .YUY2), (.NV12, .NV12), (.NV11, .NV11), (.AI44, .AI44),
    (.P010, .P010), (.P016, .P016), (.Y210, .Y210), (.Y216, .Y216),
    (.Y410, .Y410), (.Y416, .Y416), (.F420O, .OPAQUE_420) ]

/-- The linear scan over s_DXGIFormatMapping done in IsMediaTypeSupported:
first entry whose Subtype matches, if any. -/
def lookupDXGIFormat (st : VideoSubtype) : Option DXGIFormat :=
  (s_DXGIFormatMapping.find? (fun e => e.1 = st)).map (·.2)

/-- Major types: the code only ever writes MFMediaType_Video. -/
inductive MajorType where
  | Video
deriving DecidableEq, Repr

/-- An IMFMediaType as the code reads it: the MF_MT_MAJOR_TYPE and
MF_MT_SUBTYPE attributes; `none` means the attribute is absent and GetGUID
fails with MF_E_ATTRIBUTENOTFOUND. -/
structure MediaType where
  major : Option MajorType
  subtype : Option VideoSubtype
deriving DecidableEq, Repr

/-- Media event types the stream sink queues. -/
inductive MediaEventType where
  | MEStreamSinkStarted
  | MEStreamSinkRequestSample
deriving DecidableEq, Repr

/-- One entry of the event queue: (event type, status). Extended type is
always GUID_NULL and the value always NULL in the code. -/
structure Event where
  met : MediaEventType
  status : HResult
deriving DecidableEq, Repr

/-- SAMPLE_QUEUE_HIWATER_THRESHOLD (source line 2899). -/
def SAMPLE_QUEUE_HIWATER_THRESHOLD : Nat := 3

/-- Modulus of a DWORD (unsigned 32-bit): counter arithmetic wraps. -/
def UINT32_MOD : Nat := 2 ^ 32

/-- State of a CustomVideoStreamSink instance (member declarations, source
lines 3935-3964). The event queue is `some events` while the
MFCreateEventQueue-created queue is alive and `none` after Shutdown resets
it. -/
structure CustomVideoStreamSink where
  m_IsShutdown : Bool
  m_state : State
  m_pCurrentType : Option MediaType
  m_pEventQueue : Option (List Event)
  m_imageBytesPP : Nat × Nat
  m_dxgiFormat : DXGIFormat
  m_cOutstandingSampleRequests : Nat
  m_count : Nat
deriving DecidableEq, Repr

/-- A freshly constructed stream sink (constructor, source lines 3966-3977,
plus member initializers). -/
def initialStreamSink : CustomVideoStreamSink :=
  { m_IsShutdown := false
    m_state := .State_TypeNotSet
    m_pCurrentType := none
    m_pEventQueue := some []
    m_imageBytesPP := (1, 1)
    m_dxgiFormat := .UNKNOWN
    m_cOutstandingSampleRequests := 0
    m_count := 0 }

/-- CheckShutdown (source lines 4070-4080). -/
def CustomVideoStreamSink.CheckShutdown (s : CustomVideoStreamSink) : HResult :=
  if s.m_IsShutdown = true then .MF_E_SHUTDOWN else .S_OK

/-- NeedMoreSamples (source lines 4089-4095): samples in flight below the
high-water threshold. -/
def CustomVideoStreamSink.NeedMoreSamples (s : CustomVideoStreamSink) : Bool :=
  s.m_cOutstandingSampleRequests < SAMPLE_QUEUE_HIWATER_THRESHOLD

/-- Member QueueEvent (source lines 4551-4564): CheckShutdown, then
QueueEventParamVar on the event queue (modelled as appending and
succeeding). -/
def CustomVideoStreamSink.QueueEvent (s : CustomVideoStreamSink)
    (met : MediaEventType) (hrStatus : HResult) :
    HResult × CustomVideoStreamSink :=
  if s.m_IsShutdown = true then (.MF_E_SHUTDOWN, s)
  else
    (.S_OK,
     { s with m_pEventQueue :=
         s.m_pEventQueue.map (fun q => q ++ [⟨met, hrStatus⟩]) })

/-- Flush (source lines 4378-4381): the implementation is just `return
S_OK` — there is no sample queue to discard in this snapshot. -/
def CustomVideoStreamSink.Flush (_s : CustomVideoStreamSink) : HResult := .S_OK

/-- PlaceMarker (source lines 4426-4429): unconditionally E_FAIL, no state
change. -/
def CustomVideoStreamSink.PlaceMarker (s : CustomVideoStreamSink) :
    HResult × CustomVideoStreamSink :=
  (.E_FAIL, s)

/-- Pause (source lines 4138-4151): ValidateOperation only (no shutdown
check), transition to Paused on success. -/
def CustomVideoStreamSink.Pause (s : CustomVideoStreamSink) :
    HResult × CustomVideoStreamSink :=
  let hr := ValidateOperation s.m_state .OpPause
  if SUCCEEDED hr then (hr, { s with m_state := .State_Paused }) else (hr, s)

/-- Restart (source lines 4182-4195): ValidateOperation only, transition to
Started on success. -/
def CustomVideoStreamSink.Restart (s : CustomVideoStreamSink) :
    HResult × CustomVideoStreamSink :=
  let hr := ValidateOperation s.m_state .OpRestart
  if SUCCEEDED hr then (hr, { s with m_state := .State_Started }) else (hr, s)

/-- Stop (source lines 4278-4291): ValidateOperation only, transition to
Stopped on success. -/
def CustomVideoStreamSink.Stop (s : CustomVideoStreamSink) :
    HResult × CustomVideoStreamSink :=
  let hr := ValidateOperation s.m_state .OpStop
  if SUCCEEDED hr then (hr, { s with m_state := .State_Stopped }) else (hr, s)

/-- Shutdown (source lines 4202-4224): sets the flag, shuts down and resets
the event queue (guarded by a null check, so a second call does not
crash), unlocks the work queue, releases the parent-sink and current-type
references, and returns MF_E_SHUTDOWN. Note that m_state is left
untouched. -/
def CustomVideoStreamSink.Shutdown (s : CustomVideoStreamSink) :
    HResult × CustomVideoStreamSink :=
  (.MF_E_SHUTDOWN,
   { s with m_IsShutdown := true, m_pEventQueue := none, m_pCurrentType := none })

/-- Result of an operation that may schedule an admission-loop work item
(QueueRequest / MFScheduleWorkItem, modelled as succeeding). -/
structure ScheduledResult where
  hr : HResult
  sink : CustomVideoStreamSink
  scheduledTick : Bool
deriving DecidableEq, Repr

/-- QueueRequest (source lines 4119-4131): unconditionally schedules the
RequestSamples callback after the 1000/30 ms interval. Modelled as the
schedule succeeding. -/
def CustomVideoStreamSink.QueueRequest : HResult × Bool := (.S_OK, true)

/-- The sentinel MFTIME start value meaning resume-in-place. -/
def PRESENTATION_CURRENT_POSITION : Int := 0x7fffffffffffffff

/-- Start (source lines 4233-4271): validate OpStart; the
non-current-position branch has no effect (the start-time cache is
commented out); transition to Started; if not shut down, queue
MEStreamSinkStarted; then unconditionally QueueRequest, whose result is
the returned hr. -/
def CustomVideoStreamSink.Start (s : CustomVideoStreamSink) (start : Int) :
    ScheduledResult :=
  let hrV := ValidateOperation s.m_state .OpStart
  if FAILED hrV then { hr := hrV, sink := s, scheduledTick := false }
  else
    let _ := start = PRESENTATION_CURRENT_POSITION
    let s1 := { s with m_state := State.State_Started }
    let hr1 := s1.CheckShutdown
    let s2 := if SUCCEEDED hr1 then (s1.QueueEvent .MEStreamSinkStarted hr1).2 else s1
    { hr := CustomVideoStreamSink.QueueRequest.1, sink := s2,
      scheduledTick := CustomVideoStreamSink.QueueRequest.2 }

/-- The while-loop body of RequestSamples (source lines 4097-4112): while
NeedMoreSamples, check shutdown (break on failure), increment the DWORD
counter, queue MEStreamSinkRequestSample. -/
def RequestSamplesLoop (s : CustomVideoStreamSink) : CustomVideoStreamSink :=
  if s.NeedMoreSamples then
    if s.m_IsShutdown = true then s
    else
      let s1 := { s with m_cOutstandingSampleRequests :=
                    (s.m_cOutstandingSampleRequests + 1) % UINT32_MOD }
      let s2 := (s1.QueueEvent .MEStreamSinkRequestSample .S_OK).2
      RequestSamplesLoop s2
  else s
termination_by SAMPLE_QUEUE_HIWATER_THRESHOLD - s.m_cOutstandingSampleRequests
decreasing_by
  simp only [CustomVideoStreamSink.QueueEvent, CustomVideoStreamSink.NeedMoreSamples,
    SAMPLE_QUEUE_HIWATER_THRESHOLD, UINT32_MOD, decide_eq_true_eq] at *
  split
  · simp_all
  · simp only []
    rw [Nat.mod_eq_of_lt (by omega)]
    omega

/-- RequestSamples (source lines 4097-4117): run the admission loop, then
unconditionally QueueRequest (reschedule the next tick) and return its
result. -/
def CustomVideoStreamSink.RequestSamples (s : CustomVideoStreamSink) :
    ScheduledResult :=
  let s1 := RequestSamplesLoop s
  { hr := CustomVideoStreamSink.QueueRequest.1, sink := s1,
    scheduledTick := CustomVideoStreamSink.QueueRequest.2 }

/-- An IMFSample as ProcessSample probes it: the results of
GetBufferCount, GetBufferByIndex/ConvertToContiguousBuffer, the QI to
IMFDXGIBuffer, and GetResource. -/
structure Sample where
  getBufferCount : HResult
  cBuffers : Nat
  getBuffer : HResult
  asDXGIBuffer : HResult
  getResource : HResult
deriving DecidableEq, Repr

/-- A well-formed single-buffer DXGI sample: every probe succeeds. -/
def goodSample : Sample :=
  { getBufferCount := .S_OK, cBuffers := 1, getBuffer := .S_OK,
    asDXGIBuffer := .S_OK, getResource := .S_OK }

/-- ProcessSample (source lines 4434-4484): increments m_count, decrements
the DWORD m_cOutstandingSampleRequests (wrapping), then tries to extract a
texture. There is no ValidateOperation and no CheckShutdown. A failing
GetBufferCount or buffer fetch returns that error; a failing DXGI
query-interface or GetResource merely breaks out and S_OK is returned.
The state is never changed. -/
def CustomVideoStreamSink.ProcessSample (s : CustomVideoStreamSink)
    (smp : Sample) : HResult × CustomVideoStreamSink :=
  let s1 := { s with
    m_count := s.m_count + 1,
    m_cOutstandingSampleRequests :=
      (s.m_cOutstandingSampleRequests + (UINT32_MOD - 1)) % UINT32_MOD }
  if FAILED smp.getBufferCount then (smp.getBufferCount, s1)
  else if FAILED smp.getBuffer then (smp.getBuffer, s1)
  else if FAILED smp.asDXGIBuffer then (.S_OK, s1)
  else if FAILED smp.getResource then (.S_OK, s1)
  else (.S_OK, s1)

/-- IsMediaTypeSupported (source lines 4700-4769): CheckShutdown, null
check, read the subtype attribute, linear scan of s_pVideoFormats (hr
preset to MF_E_INVALIDMEDIATYPE, set to S_OK on a hit), then — only when
accepted — scan s_DXGIFormatMapping and cache the display format in
m_dxgiFormat (left unchanged when no entry matches). -/
def CustomVideoStreamSink.IsMediaTypeSupported (s : CustomVideoStreamSink)
    (mt : MediaType) : HResult × CustomVideoStreamSink :=
  if s.m_IsShutdown = true then (.MF_E_SHUTDOWN, s)
  else
    match mt.subtype with
    | none => (.MF_E_ATTRIBUTENOTFOUND, s)
    | some st =>
      if s_pVideoFormats.contains st then
        match lookupDXGIFormat st with
        | some f => (.S_OK, { s with m_dxgiFormat := f })
        | none => (.S_OK, s)
      else (.MF_E_INVALIDMEDIATYPE, s)

/-- The if/else-if chain of SetCurrentMediaType (source lines 4809-4850)
computing m_imageBytesPP from the negotiated subtype. A missing subtype
attribute leaves guidSubtype at GUID_NULL, which falls into the 1/1
fail-safe branch. -/
def imageBytesPPOf (g : Option VideoSubtype) : Nat × Nat :=
  match g with
  | none => (1, 1)
  | some st =>
    if st = .NV12 ∨ st = .YV12 ∨ st = .IYUV ∨ st = .YVU9 ∨ st = .I420 then
      (3, 2)
    else if st = .YUY2 ∨ st = .RGB555 ∨ st = .RGB565 ∨ st = .UYVY ∨
        st = .YVYU ∨ st = .V216 then
      (2, 1)
    else if st = .RGB24 then (3, 1)
    else if st = .RGB32 then (4, 1)
    else if st = .v410 then (5, 4)
    else (1, 1)

/-- Result of SetCurrentMediaType; `flushCalled` records whether the
format-change-while-live branch invoked Flush. -/
structure SetTypeResult where
  hr : HResult
  sink : CustomVideoStreamSink
  flushCalled : Bool
deriving DecidableEq, Repr

/-- SetCurrentMediaType (source lines 4772-4915): null check, CheckShutdown,
ValidateOperation(OpSetMediaType), IsMediaTypeSupported (which caches the
display format); on success replace m_pCurrentType, recompute
m_imageBytesPP, and set the state to Ready unless currently
Started/Paused, in which case call Flush instead and leave the state
alone. -/
def CustomVideoStreamSink.SetCurrentMediaType (s : CustomVideoStreamSink)
    (mt : MediaType) : SetTypeResult :=
  if s.m_IsShutdown = true then { hr := .MF_E_SHUTDOWN, sink := s, flushCalled := false }
  else
    let hrV := ValidateOperation s.m_state .OpSetMediaType
    if FAILED hrV then { hr := hrV, sink := s, flushCalled := false }
    else
      let (hrS, s1) := s.IsMediaTypeSupported mt
      if FAILED hrS then { hr := hrS, sink := s1, flushCalled := false }
      else
        let s2 := { s1 with m_pCurrentType := some mt,
                            m_imageBytesPP := imageBytesPPOf mt.subtype }
        if s2.m_state ≠ .State_Started ∧ s2.m_state ≠ .State_Paused then
          { hr := .S_OK, sink := { s2 with m_state := .State_Ready },
            flushCalled := false }
        else
          { hr := s2.Flush, sink := s2, flushCalled := true }

/-- GetCurrentMediaType (source lines 4567-4593): CheckShutdown, then
MF_E_NOT_INITIALIZED when no type was negotiated, else the current type. -/
def CustomVideoStreamSink.GetCurrentMediaType (s : CustomVideoStreamSink) :
    HResult × Option MediaType :=
  if s.m_IsShutdown = true then (.MF_E_SHUTDOWN, none)
  else
    match s.m_pCurrentType with
    | none => (.MF_E_NOT_INITIALIZED, none)
    | some t => (.S_OK, some t)

/-- GetMediaTypeCount (source lines 4677-4699): CheckShutdown, then the
fixed catalog size. -/
def CustomVideoStreamSink.GetMediaTypeCount (s : CustomVideoStreamSink) :
    HResult × Option Nat :=
  if s.m_IsShutdown = true then (.MF_E_SHUTDOWN, none)
  else (.S_OK, some s_dwNumVideoFormats)

/-- GetMediaTypeByIndex (source lines 4616-4675): CheckShutdown;
MF_E_NO_MORE_TYPES when the index is at or past s_dwNumVideoFormats; else
build a fresh media type with major type Video and the catalog subtype at
that index (MFCreateMediaType/SetGUID modelled as succeeding). -/
def CustomVideoStreamSink.GetMediaTypeByIndex (s : CustomVideoStreamSink)
    (dwIndex : Nat) : HResult × Option MediaType :=
  if s.m_IsShutdown = true then (.MF_E_SHUTDOWN, none)
  else if s_dwNumVideoFormats ≤ dwIndex then (.MF_E_NO_MORE_TYPES, none)
  else (.S_OK, some { major := some .Video, subtype := s_pVideoFormats.get? dwIndex })

/-- State of a CustomVideoRenderer (the media sink, source lines 4920-4933):
the shutdown flag, the single owned stream sink, and whether a
presentation clock is bound. -/
structure CustomVideoRenderer where
  m_IsShutdown : Bool
  m_pStream : Option CustomVideoStreamSink
  m_hasClock : Bool
deriving DecidableEq, Repr

/-- The fixed stream identifier STREAM_ID (source line 4928). -/
def STREAM_ID : Nat := 1

/-- A freshly created renderer owning one fresh stream sink and no clock. -/
def initialRenderer : CustomVideoRenderer :=
  { m_IsShutdown := false, m_pStream := some initialStreamSink, m_hasClock := false }

/-- CheckShutdown of the media sink. -/
def CustomVideoRenderer.CheckShutdown (r : CustomVideoRenderer) : HResult :=
  if r.m_IsShutdown = true then .MF_E_SHUTDOWN else .S_OK

/-- GetStreamSinkById (source lines 5096-5121): reject a wrong identifier
with MF_E_INVALIDSTREAMNUMBER; otherwise CheckShutdown and, on success,
write the stream to the out parameter — but then return E_FAIL
unconditionally (the computed hr is discarded). The second component
models what was written to the out parameter. -/
def CustomVideoRenderer.GetStreamSinkById (r : CustomVideoRenderer)
    (dwStreamSinkIdentifier : Nat) :
    HResult × Option CustomVideoStreamSink :=
  if dwStreamSinkIdentifier ≠ STREAM_ID then (.MF_E_INVALIDSTREAMNUMBER, none)
  else
    let hr := r.CheckShutdown
    if SUCCEEDED hr then (.E_FAIL, r.m_pStream) else (.E_FAIL, none)

/-- GetStreamSinkByIndex (source lines 5123-5147): reject index > 0 with
MF_E_INVALIDINDEX; otherwise CheckShutdown and on success return the
stream with the computed hr. -/
def CustomVideoRenderer.GetStreamSinkByIndex (r : CustomVideoRenderer)
    (dwIndex : Nat) : HResult × Option CustomVideoStreamSink :=
  if 0 < dwIndex then (.MF_E_INVALIDINDEX, none)
  else
    let hr := r.CheckShutdown
    if SUCCEEDED hr then (hr, r.m_pStream) else (hr, none)

/-- Media sink Shutdown (source lines 5208-5241): hr is initialized to
MF_E_SHUTDOWN and returned as is; sets the flag, cascades Shutdown to the
stream sink (null-guarded), then releases the clock and stream
references. -/
def CustomVideoRenderer.Shutdown (r : CustomVideoRenderer) :
    HResult × CustomVideoRenderer :=
  let _ := r.m_pStream.map (fun st => (st.Shutdown).2)
  (.MF_E_SHUTDOWN, { m_IsShutdown := true, m_pStream := none, m_hasClock := false })

/-- The actions of the interleaving alphabet of claim C2: a presentation
clock Start, an upstream ProcessSample delivery, and an admission-loop
tick. -/
inductive SinkAction where
  | start (t : Int)
  | processSample (smp : Sample)
  | tick
deriving DecidableEq, Repr

/-- One action applied to the stream sink state. -/
def stepAction (s : CustomVideoStreamSink) : SinkAction → CustomVideoStreamSink
  | .start t => (s.Start t).sink
  | .processSample smp => (s.ProcessSample smp).2
  | .tick => (s.RequestSamples).sink

/-- Run a list of actions from a sink state. -/
def runActions (s : CustomVideoStreamSink) (acts : List SinkAction) :
    CustomVideoStreamSink :=
  acts.foldl stepAction s

/-- The trace discipline under which the admission counter is meaningful:
every ProcessSample actually answers an outstanding request, i.e. occurs
while the counter is positive. -/
def AnswersRequests : CustomVideoStreamSink → List SinkAction → Bool
  | _, [] => true
  | s, a :: rest =>
    (match a with
     | .processSample _ => decide (0 < s.m_cOutstandingSampleRequests)
     | _ => true) && AnswersRequests (stepAction s a) rest

/-- The request event queued by the admission loop. -/
def requestEvent : Event := ⟨.MEStreamSinkRequestSample, .S_OK⟩

lemma RequestSamplesLoop_of_shutdown (s : CustomVideoStreamSink)
    (h : s.m_IsShutdown = true) : RequestSamplesLoop s = s := by
  unfold RequestSamplesLoop
  simp [h]

lemma RequestSamplesLoop_of_full (s : CustomVideoStreamSink)
    (h : ¬ s.m_cOutstandingSampleRequests < SAMPLE_QUEUE_HIWATER_THRESHOLD) :
    RequestSamplesLoop s = s := by
  unfold RequestSamplesLoop
  simp [CustomVideoStreamSink.NeedMoreSamples, h]

lemma RequestSamplesLoop_eq : ∀ (n : Nat) (s : CustomVideoStreamSink),
    s.m_IsShutdown = false →
    SAMPLE_QUEUE_HIWATER_THRESHOLD - s.m_cOutstandingSampleRequests = n →
    s.m_cOutstandingSampleRequests ≤ SAMPLE_QUEUE_HIWATER_THRESHOLD →
    RequestSamplesLoop s = { s with
      m_cOutstandingSampleRequests := SAMPLE_QUEUE_HIWATER_THRESHOLD,
      m_pEventQueue := s.m_pEventQueue.map
        (fun q => q ++ List.replicate n requestEvent) } := by
  intro n
  induction n with
  | zero =>
    intro s h2 h3 hle
    simp only [SAMPLE_QUEUE_HIWATER_THRESHOLD] at h3 hle
    have hc : s.m_cOutstandingSampleRequests = 3 := by omega
    rw [RequestSamplesLoop_of_full s (by simp [SAMPLE_QUEUE_HIWATER_THRESHOLD, hc])]
    obtain ⟨sd, st, ct, eq, pp, dx, c, cnt⟩ := s
    dsimp only at hc
    subst hc
    cases eq <;> simp [SAMPLE_QUEUE_HIWATER_THRESHOLD]
  | succ n ih =>
    intro s h2 h3 hle
    obtain ⟨sd, st, ct, eq, pp, dx, c, cnt⟩ := s
    dsimp only at h2 h3 hle
    subst h2
    simp only [SAMPLE_QUEUE_HIWATER_THRESHOLD] at h3 hle
    have hc : c < 3 := by omega
    have hmod : (c + 1) % UINT32_MOD = c + 1 :=
      Nat.mod_eq_of_lt (by simp only [UINT32_MOD]; omega)
    unfold RequestSamplesLoop
    rw [if_pos (by
      simp [CustomVideoStreamSink.NeedMoreSamples, SAMPLE_QUEUE_HIWATER_THRESHOLD, hc])]
    rw [if_neg (by simp)]
    simp only [CustomVideoStreamSink.QueueEvent, Bool.false_eq_true, if_false, hmod]
    rw [ih ⟨false, st, ct,
        eq.map (fun q => q ++ [Event.mk .MEStreamSinkRequestSample .S_OK]),
        pp, dx, c + 1, cnt⟩ rfl
      (by simp only [SAMPLE_QUEUE_HIWATER_THRESHOLD]; omega)
      (by simp only [SAMPLE_QUEUE_HIWATER_THRESHOLD]; omega)]
    cases eq <;> simp [requestEvent, List.replicate_succ]

lemma Start_sink_counter (s : CustomVideoStreamSink) (t : Int) :
    (s.Start t).sink.m_cOutstandingSampleRequests =
      s.m_cOutstandingSampleRequests := by
  simp only [CustomVideoStreamSink.Start, CustomVideoStreamSink.QueueEvent,
    CustomVideoStreamSink.CheckShutdown]
  split_ifs <;> rfl

lemma ProcessSample_counter (s : CustomVideoStreamSink) (smp : Sample) :
    (s.ProcessSample smp).2.m_cOutstandingSampleRequests =
      (s.m_cOutstandingSampleRequests + (UINT32_MOD - 1)) % UINT32_MOD := by
  simp only [CustomVideoStreamSink.ProcessSample]
  split_ifs <;> rfl

lemma RequestSamples_sink_counter_le (s : CustomVideoStreamSink)
    (h : s.m_cOutstandingSampleRequests ≤ SAMPLE_QUEUE_HIWATER_THRESHOLD) :
    (s.RequestSamples).sink.m_cOutstandingSampleRequests ≤
      SAMPLE_QUEUE_HIWATER_THRESHOLD := by
  unfold CustomVideoStreamSink.RequestSamples
  cases hsd : s.m_IsShutdown
  · rw [RequestSamplesLoop_eq (SAMPLE_QUEUE_HIWATER_THRESHOLD -
      s.m_cOutstandingSampleRequests) s hsd rfl h]
  · rw [RequestSamplesLoop_of_shutdown s hsd]
    exact h

/-- The MEStreamSinkStarted event queued by Start. -/
def startedEvent : Event := ⟨.MEStreamSinkStarted, .S_OK⟩

/-- A candidate NV12 video type (scenario A of the spec). -/
def nv12Type : MediaType := { major := some .Video, subtype := some .NV12 }

/-- A candidate YUY2 video type. -/
def yuy2Type : MediaType := { major := some .Video, subtype := some .YUY2 }

/-- A candidate 420O (4:2:0 opaque) video type. -/
def f420Type : MediaType := { major := some .Video, subtype := some .F420O }

/-- The sink after a fresh construction followed by a successful
SetCurrentMediaType(NV12): state Ready, ratio 3/2, counter 0. -/
def readySinkNV12 : CustomVideoStreamSink :=
  (initialStreamSink.SetCurrentMediaType nv12Type).sink

/-- The Ready sink after Shutdown was called on it. -/
def shutdownReadySink : CustomVideoStreamSink := (readySinkNV12.Shutdown).2

/-- Sanity check (scenario A of the spec): the NV12 negotiation on a fresh
sink yields state Ready with ratio 3/2. -/
lemma readySinkNV12_eq : readySinkNV12 =
    { m_IsShutdown := false, m_state := .State_Ready,
      m_pCurrentType := some nv12Type, m_pEventQueue := some [],
      m_imageBytesPP := (3, 2), m_dxgiFormat := .NV12,
      m_cOutstandingSampleRequests := 0, m_count := 0 } := by decide

/-- Characterization of a successful SetCurrentMediaType call with a
supported candidate on a non-shut-down sink. -/
lemma SetCurrentMediaType_success (s : CustomVideoStreamSink) (mt : MediaType)
    (st : VideoSubtype) (hsd : s.m_IsShutdown = false)
    (hst : mt.subtype = some st)
    (hsup : s_pVideoFormats.contains st = true) :
    (s.SetCurrentMediaType mt).hr = .S_OK ∧
    (s.SetCurrentMediaType mt).sink.m_pCurrentType = some mt ∧
    (s.SetCurrentMediaType mt).sink.m_imageBytesPP = imageBytesPPOf mt.subtype ∧
    (s.SetCurrentMediaType mt).sink.m_IsShutdown = false ∧
    (s.SetCurrentMediaType mt).sink.m_state =
      (if s.m_state = .State_Started ∨ s.m_state = .State_Paused
       then s.m_state else .State_Ready) ∧
    (s.SetCurrentMediaType mt).flushCalled =
      decide (s.m_state = .State_Started ∨ s.m_state = .State_Paused) := by
  have hval : ValidateOperation s.m_state .OpSetMediaType = .S_OK := by
    cases h : s.m_state <;> simp [ValidateOperation, ValidStateMatrix]
  simp only [CustomVideoStreamSink.SetCurrentMediaType,
    CustomVideoStreamSink.IsMediaTypeSupported, hsd, hst, hsup, hval,
    Bool.false_eq_true, if_false, FAILED, SUCCEEDED, Bool.not_true,
    Bool.not_false, CustomVideoStreamSink.Flush]
  cases hL : lookupDXGIFormat st <;>
    by_cases hS : s.m_state = .State_Started ∨ s.m_state = .State_Paused
  · rcases hS with h1 | h1 <;> simp [h1, hsd]
  · have h1 : s.m_state ≠ .State_Started := fun h => hS (Or.inl h)
    have h2 : s.m_state ≠ .State_Paused := fun h => hS (Or.inr h)
    simp [h1, h2, hsd]
  · rcases hS with h1 | h1 <;> simp [h1, hsd]
  · have h1 : s.m_state ≠ .State_Started := fun h => hS (Or.inl h)
    have h2 : s.m_state ≠ .State_Paused := fun h => hS (Or.inr h)
    simp [h1, h2, hsd]

/-- C1: the claim says every operation is gated by ValidStateMatrix and in
particular ProcessSample in state Ready is rejected with
MF_E_INVALIDREQUEST. The code violates this: ProcessSample never calls
ValidateOperation, so on a Ready sink with a well-formed sample it returns
S_OK and decrements the DWORD counter (wrapping 0 to 2^32 - 1) even though
the matrix marks Ready/OpProcessSample as disallowed. -/
theorem C1_processSample_ignores_matrix :
    ValidStateMatrix .State_Ready .OpProcessSample = false ∧
    ValidateOperation .State_Ready .OpProcessSample = .MF_E_INVALIDREQUEST ∧
    readySinkNV12.m_state = .State_Ready ∧
    (readySinkNV12.ProcessSample goodSample).1 = .S_OK ∧
    (readySinkNV12.ProcessSample goodSample).2.m_cOutstandingSampleRequests =
      UINT32_MOD - 1 := by
  refine ⟨rfl, rfl, by decide, by decide, by decide⟩

/-- C2, counterexample: the claimed invariant 0 ≤ counter ≤ 3 fails on the
reachable trace that delivers one ProcessSample to a fresh sink — the
unguarded DWORD decrement wraps the counter to 2^32 - 1 > 3. -/
theorem C2_counterexample :
    (runActions initialStreamSink
        [.processSample goodSample]).m_cOutstandingSampleRequests =
      UINT32_MOD - 1 ∧
    ¬ (runActions initialStreamSink
        [.processSample goodSample]).m_cOutstandingSampleRequests ≤
      SAMPLE_QUEUE_HIWATER_THRESHOLD := by
  refine ⟨by decide, by decide⟩

/-- C2, amended: along every trace of Start / ProcessSample / tick actions
in which each ProcessSample answers an outstanding request (the counter is
positive when it arrives), the counter stays within 0 ≤ counter ≤ 3. -/
theorem C2_guarded_counter_invariant :
    ∀ (acts : List SinkAction) (s : CustomVideoStreamSink),
    s.m_cOutstandingSampleRequests ≤ SAMPLE_QUEUE_HIWATER_THRESHOLD →
    AnswersRequests s acts = true →
    0 ≤ (runActions s acts).m_cOutstandingSampleRequests ∧
    (runActions s acts).m_cOutstandingSampleRequests ≤
      SAMPLE_QUEUE_HIWATER_THRESHOLD := by
  intro acts
  induction acts with
  | nil => intro s h _; exact ⟨Nat.zero_le _, h⟩
  | cons a rest ih =>
    intro s h hg
    simp only [AnswersRequests, Bool.and_eq_true] at hg
    obtain ⟨hg1, hg2⟩ := hg
    simp only [runActions, List.foldl_cons]
    refine ih (stepAction s a) ?_ hg2
    cases a with
    | start t => simpa [stepAction, Start_sink_counter] using h
    | tick => exact RequestSamples_sink_counter_le s h
    | processSample smp =>
      simp only [stepAction, ProcessSample_counter]
      simp only [decide_eq_true_eq] at hg1
      simp only [SAMPLE_QUEUE_HIWATER_THRESHOLD, UINT32_MOD] at *
      have hrw : s.m_cOutstandingSampleRequests + (2 ^ 32 - 1) =
          (s.m_cOutstandingSampleRequests - 1) + 2 ^ 32 := by omega
      rw [hrw, Nat.add_mod_right, Nat.mod_eq_of_lt (by omega)]
      omega

/-- A started sink with two requests in flight, used as a concrete trace
start for witnesses. -/
def inFlightSink : CustomVideoStreamSink :=
  { initialStreamSink with
      m_state := .State_Started, m_cOutstandingSampleRequests := 2 }

/-- C2, witness for the amended invariant at a concrete guarded trace. -/
theorem C2_guarded_counter_invariant_witness :
    inFlightSink.m_cOutstandingSampleRequests ≤ SAMPLE_QUEUE_HIWATER_THRESHOLD ∧
    AnswersRequests inFlightSink
      [.processSample goodSample, .processSample goodSample] = true ∧
    0 ≤ (runActions inFlightSink
      [.processSample goodSample,
       .processSample goodSample]).m_cOutstandingSampleRequests ∧
    (runActions inFlightSink
      [.processSample goodSample,
       .processSample goodSample]).m_cOutstandingSampleRequests ≤
      SAMPLE_QUEUE_HIWATER_THRESHOLD := by
  refine ⟨by decide, by decide, ?_, ?_⟩
  · exact (C2_guarded_counter_invariant _ _ (by decide) (by decide)).1
  · exact (C2_guarded_counter_invariant _ _ (by decide) (by decide)).2

/-- C3, counterexample: the claim says every operation after Shutdown
returns the shutdown error. In the code, Shutdown leaves m_state alone and
Pause checks only the matrix, so Pause on a shut-down Ready sink returns
S_OK and even transitions to Paused. -/
theorem C3_counterexample :
    shutdownReadySink.m_IsShutdown = true ∧
    (shutdownReadySink.Pause).1 = .S_OK ∧
    (shutdownReadySink.Pause).1 ≠ .MF_E_SHUTDOWN ∧
    (shutdownReadySink.Pause).2.m_state = .State_Paused := by
  refine ⟨by decide, by decide, by decide, by decide⟩

/-- C3, amended: after Shutdown, a second Shutdown returns MF_E_SHUTDOWN
without crashing, and the operations that call CheckShutdown (QueueEvent
and the media-type handler operations) fail with MF_E_SHUTDOWN; but the
lifecycle operations Pause/Stop/Restart are gated only by the matrix on
the stale pre-shutdown state, and ProcessSample is accepted outright. -/
theorem C3_post_shutdown_behavior (s : CustomVideoStreamSink)
    (h : s.m_IsShutdown = true) (met : MediaEventType) (hrSt : HResult)
    (mt : MediaType) (i : Nat) :
    (s.Shutdown).1 = .MF_E_SHUTDOWN ∧
    (s.QueueEvent met hrSt).1 = .MF_E_SHUTDOWN ∧
    s.GetCurrentMediaType = (.MF_E_SHUTDOWN, none) ∧
    s.GetMediaTypeCount = (.MF_E_SHUTDOWN, none) ∧
    s.GetMediaTypeByIndex i = (.MF_E_SHUTDOWN, none) ∧
    (s.SetCurrentMediaType mt).hr = .MF_E_SHUTDOWN ∧
    (s.IsMediaTypeSupported mt).1 = .MF_E_SHUTDOWN ∧
    (s.Pause).1 = ValidateOperation s.m_state .OpPause ∧
    (s.Stop).1 = ValidateOperation s.m_state .OpStop ∧
    (s.Restart).1 = ValidateOperation s.m_state .OpRestart ∧
    (s.ProcessSample goodSample).1 = .S_OK := by
  refine ⟨rfl, ?_, ?_, ?_, ?_, ?_, ?_, ?_, ?_, ?_, ?_⟩
  · simp [CustomVideoStreamSink.QueueEvent, h]
  · simp [CustomVideoStreamSink.GetCurrentMediaType, h]
  · simp [CustomVideoStreamSink.GetMediaTypeCount, h]
  · simp [CustomVideoStreamSink.GetMediaTypeByIndex, h]
  · simp [CustomVideoStreamSink.SetCurrentMediaType, h]
  · simp [CustomVideoStreamSink.IsMediaTypeSupported, h]
  · simp only [CustomVideoStreamSink.Pause]
    split <;> rfl
  · simp only [CustomVideoStreamSink.Stop]
    split <;> rfl
  · simp only [CustomVideoStreamSink.Restart]
    split <;> rfl
  · simp [CustomVideoStreamSink.ProcessSample, goodSample, FAILED, SUCCEEDED]

/-- C3, witness for the amended theorem at the shut-down Ready sink. -/
theorem C3_post_shutdown_behavior_witness :
    shutdownReadySink.m_IsShutdown = true ∧
    ((shutdownReadySink.Shutdown).1 = .MF_E_SHUTDOWN ∧
     (shutdownReadySink.QueueEvent .MEStreamSinkStarted .S_OK).1 = .MF_E_SHUTDOWN ∧
     shutdownReadySink.GetCurrentMediaType = (.MF_E_SHUTDOWN, none) ∧
     shutdownReadySink.GetMediaTypeCount = (.MF_E_SHUTDOWN, none) ∧
     shutdownReadySink.GetMediaTypeByIndex 0 = (.MF_E_SHUTDOWN, none) ∧
     (shutdownReadySink.SetCurrentMediaType nv12Type).hr = .MF_E_SHUTDOWN ∧
     (shutdownReadySink.IsMediaTypeSupported nv12Type).1 = .MF_E_SHUTDOWN ∧
     (shutdownReadySink.Pause).1 =
       ValidateOperation shutdownReadySink.m_state .OpPause ∧
     (shutdownReadySink.Stop).1 =
       ValidateOperation shutdownReadySink.m_state .OpStop ∧
     (shutdownReadySink.Restart).1 =
       ValidateOperation shutdownReadySink.m_state .OpRestart ∧
     (shutdownReadySink.ProcessSample goodSample).1 = .S_OK) :=
  ⟨by decide,
   C3_post_shutdown_behavior shutdownReadySink (by decide)
     .MEStreamSinkStarted .S_OK nv12Type 0⟩

/-- C4, counterexample: the claim says a tick that observes the shutdown
flag terminates without rescheduling itself; in the code RequestSamples
calls QueueRequest unconditionally after the loop, so even on a shut-down
sink the tick schedules another tick. -/
theorem C4_counterexample :
    shutdownReadySink.m_IsShutdown = true ∧
    (shutdownReadySink.RequestSamples).scheduledTick = true := by
  exact ⟨by decide, rfl⟩

/-- C4, amended: a tick that runs after the shutdown flag is set leaves the
sink completely unchanged — it never increments the counter and never
queues a request-sample event — but it still unconditionally reschedules
the next tick. -/
theorem C4_post_shutdown_tick (s : CustomVideoStreamSink)
    (h : s.m_IsShutdown = true) :
    s.RequestSamples =
      { hr := .S_OK, sink := s, scheduledTick := true } := by
  unfold CustomVideoStreamSink.RequestSamples
  rw [RequestSamplesLoop_of_shutdown s h]
  rfl

/-- C4, witness for the amended theorem at the shut-down Ready sink. -/
theorem C4_post_shutdown_tick_witness :
    shutdownReadySink.m_IsShutdown = true ∧
    shutdownReadySink.RequestSamples =
      { hr := .S_OK, sink := shutdownReadySink, scheduledTick := true } :=
  ⟨by decide, C4_post_shutdown_tick shutdownReadySink (by decide)⟩

/-- C5: SetCurrentMediaType with a supported candidate on a non-shut-down
sink succeeds; while Started or Paused it invokes Flush and leaves the
state unchanged, in every other (always matrix-allowed) state it sets the
state to Ready without flushing; in both cases the current type is
replaced and the bytes-per-pixel ratio recomputed from the new subtype. -/
theorem C5_setType_flush_policy (s : CustomVideoStreamSink) (mt : MediaType)
    (st : VideoSubtype) (hsd : s.m_IsShutdown = false)
    (hst : mt.subtype = some st)
    (hsup : s_pVideoFormats.contains st = true) :
    (s.SetCurrentMediaType mt).hr = .S_OK ∧
    (s.SetCurrentMediaType mt).sink.m_pCurrentType = some mt ∧
    (s.SetCurrentMediaType mt).sink.m_imageBytesPP = imageBytesPPOf mt.subtype ∧
    ((s.m_state = .State_Started ∨ s.m_state = .State_Paused) →
      (s.SetCurrentMediaType mt).sink.m_state = s.m_state ∧
      (s.SetCurrentMediaType mt).flushCalled = true) ∧
    (¬ (s.m_state = .State_Started ∨ s.m_state = .State_Paused) →
      (s.SetCurrentMediaType mt).sink.m_state = .State_Ready ∧
      (s.SetCurrentMediaType mt).flushCalled = false) := by
  obtain ⟨h1, h2, h3, _, h5, h6⟩ :=
    SetCurrentMediaType_success s mt st hsd hst hsup
  refine ⟨h1, h2, h3, ?_, ?_⟩
  · intro hS
    rw [h5, h6]
    simp [hS]
  · intro hS
    rw [h5, h6]
    simp [hS]

/-- C5, witness: a YUY2 renegotiation on a Started sink flushes and stays
Started. -/
theorem C5_setType_flush_policy_witness :
    inFlightSink.m_IsShutdown = false ∧
    yuy2Type.subtype = some VideoSubtype.YUY2 ∧
    s_pVideoFormats.contains VideoSubtype.YUY2 = true ∧
    ((inFlightSink.SetCurrentMediaType yuy2Type).hr = .S_OK ∧
     (inFlightSink.SetCurrentMediaType yuy2Type).sink.m_pCurrentType =
       some yuy2Type ∧
     (inFlightSink.SetCurrentMediaType yuy2Type).sink.m_imageBytesPP =
       imageBytesPPOf yuy2Type.subtype ∧
     ((inFlightSink.m_state = .State_Started ∨
       inFlightSink.m_state = .State_Paused) →
       (inFlightSink.SetCurrentMediaType yuy2Type).sink.m_state =
         inFlightSink.m_state ∧
       (inFlightSink.SetCurrentMediaType yuy2Type).flushCalled = true) ∧
     (¬ (inFlightSink.m_state = .State_Started ∨
         inFlightSink.m_state = .State_Paused) →
       (inFlightSink.SetCurrentMediaType yuy2Type).sink.m_state =
         .State_Ready ∧
       (inFlightSink.SetCurrentMediaType yuy2Type).flushCalled = false)) :=
  ⟨by decide, by decide, by decide,
   C5_setType_flush_policy inFlightSink yuy2Type .YUY2
     (by decide) (by decide) (by decide)⟩

/-- The bytes-per-pixel family table as the spec and claim C6 word it:
the 4:2:0 family yields 3/2, the 4:2:2 packed family yields 2/1, RGB24
3/1, RGB32 4/1, v410 5/4, and any other accepted subtype the 1/1
fail-safe. Family membership follows the actual pixel layouts of the
accepted subtypes: the 4:2:0 planar/semi-planar/opaque family is NV12,
YV12, IYUV, I420 and 420O (the source itself maps 420O to
DXGI_FORMAT_420_OPAQUE); the 4:2:2 packed family is YUY2, UYVY, YVYU and
V216. This definition follows the specification text, for comparison with
the code's table. -/
def specFamilyRatio (st : VideoSubtype) : Nat × Nat :=
  if st = .NV12 ∨ st = .YV12 ∨ st = .IYUV ∨ st = .I420 ∨ st = .F420O then
    (3, 2)
  else if st = .YUY2 ∨ st = .UYVY ∨ st = .YVYU ∨ st = .V216 then (2, 1)
  else if st = .RGB24 then (3, 1)
  else if st = .RGB32 then (4, 1)
  else if st = .v410 then (5, 4)
  else (1, 1)

/-- C6, counterexample: 420O is an accepted subtype of the 4:2:0 family,
so the claim's table demands ratio 3/2; the code's if/else chain does not
mention 420O and drops it to the 1/1 fail-safe. (The spec table also
misses that RGB555/RGB565 sit in the code's 2/1 bucket and YVU9 in its
3/2 bucket.) -/
theorem C6_counterexample :
    s_pVideoFormats.contains VideoSubtype.F420O = true ∧
    specFamilyRatio .F420O = (3, 2) ∧
    (readySinkNV12.SetCurrentMediaType f420Type).hr = .S_OK ∧
    ((readySinkNV12.SetCurrentMediaType f420Type).sink.GetCurrentMediaType).2 =
      some f420Type ∧
    (readySinkNV12.SetCurrentMediaType f420Type).sink.m_imageBytesPP = (1, 1) ∧
    (readySinkNV12.SetCurrentMediaType f420Type).sink.m_imageBytesPP ≠
      specFamilyRatio .F420O := by
  refine ⟨by decide, by decide, by decide, by decide, by decide, by decide⟩

/-- The code's actual per-subtype bytes-per-pixel buckets, written as an
explicit enumeration (the amended C6 table): NV12/YV12/IYUV/YVU9/I420 →
3/2; YUY2/RGB555/RGB565/UYVY/YVYU/V216 → 2/1; RGB24 → 3/1; RGB32 → 4/1;
v410 → 5/4; every other accepted subtype (RGB8, AYUV, NV11, 420O) → 1/1. -/
def documentedRatio (st : VideoSubtype) : Nat × Nat :=
  match st with
  | .NV12 | .YV12 | .IYUV | .YVU9 | .I420 => (3, 2)
  | .YUY2 | .RGB555 | .RGB565 | .UYVY | .YVYU | .V216 => (2, 1)
  | .RGB24 => (3, 1)
  | .RGB32 => (4, 1)
  | .v410 => (5, 4)
  | _ => (1, 1)

/-- C6, amended: for every supported subtype, a successful
SetCurrentMediaType followed by GetCurrentMediaType returns exactly the
negotiated type, and the resolved bytes-per-pixel ratio matches the
per-subtype bucket table `documentedRatio`. -/
theorem C6_roundtrip (s : CustomVideoStreamSink) (mt : MediaType)
    (st : VideoSubtype) (hsd : s.m_IsShutdown = false)
    (hst : mt.subtype = some st)
    (hsup : s_pVideoFormats.contains st = true) :
    (s.SetCurrentMediaType mt).hr = .S_OK ∧
    (s.SetCurrentMediaType mt).sink.GetCurrentMediaType = (.S_OK, some mt) ∧
    (s.SetCurrentMediaType mt).sink.m_imageBytesPP = documentedRatio st := by
  obtain ⟨h1, h2, h3, h4, _, _⟩ :=
    SetCurrentMediaType_success s mt st hsd hst hsup
  refine ⟨h1, ?_, ?_⟩
  · simp [CustomVideoStreamSink.GetCurrentMediaType, h2, h4]
  · rw [h3, hst]
    cases st <;> rfl

/-- C6, witness for the amended round-trip at the NV12 negotiation. -/
theorem C6_roundtrip_witness :
    initialStreamSink.m_IsShutdown = false ∧
    nv12Type.subtype = some VideoSubtype.NV12 ∧
    s_pVideoFormats.contains VideoSubtype.NV12 = true ∧
    ((initialStreamSink.SetCurrentMediaType nv12Type).hr = .S_OK ∧
     (initialStreamSink.SetCurrentMediaType nv12Type).sink.GetCurrentMediaType =
       (.S_OK, some nv12Type) ∧
     (initialStreamSink.SetCurrentMediaType nv12Type).sink.m_imageBytesPP =
       documentedRatio .NV12) :=
  ⟨by decide, by decide, by decide,
   C6_roundtrip initialStreamSink nv12Type .NV12 (by decide) (by decide)
     (by decide)⟩

/-- C7: from a non-shut-down sink whose state allows Start and whose
counter is 0, Start succeeds, transitions to Started, queues
MEStreamSinkStarted, and kicks off the admission loop; the first tick
raises the counter to the threshold 3 and queues exactly three
MEStreamSinkRequestSample events. -/
theorem C7_start_and_first_tick (s : CustomVideoStreamSink) (q : List Event)
    (t : Int) (hsd : s.m_IsShutdown = false)
    (hallow : ValidStateMatrix s.m_state .OpStart = true)
    (hc : s.m_cOutstandingSampleRequests = 0)
    (hq : s.m_pEventQueue = some q) :
    (s.Start t).hr = .S_OK ∧
    (s.Start t).sink.m_state = .State_Started ∧
    (s.Start t).sink.m_pEventQueue = some (q ++ [startedEvent]) ∧
    (s.Start t).scheduledTick = true ∧
    ((s.Start t).sink.RequestSamples).sink.m_cOutstandingSampleRequests =
      SAMPLE_QUEUE_HIWATER_THRESHOLD ∧
    ((s.Start t).sink.RequestSamples).sink.m_pEventQueue =
      some (q ++ [startedEvent] ++ [requestEvent, requestEvent, requestEvent]) := by
  have hS : s.Start t =
      { hr := .S_OK,
        sink := { s with
          m_state := .State_Started,
          m_pEventQueue := some (q ++ [startedEvent]) },
        scheduledTick := true } := by
    simp [CustomVideoStreamSink.Start, ValidateOperation, hallow, FAILED,
      SUCCEEDED, CustomVideoStreamSink.CheckShutdown, hsd,
      CustomVideoStreamSink.QueueEvent, hq, CustomVideoStreamSink.QueueRequest,
      startedEvent]
  have hT := RequestSamplesLoop_eq SAMPLE_QUEUE_HIWATER_THRESHOLD
    { s with
      m_state := .State_Started,
      m_pEventQueue := some (q ++ [startedEvent]) }
    (by simpa using hsd)
    (by simp [SAMPLE_QUEUE_HIWATER_THRESHOLD, hc])
    (by simp [SAMPLE_QUEUE_HIWATER_THRESHOLD, hc])
  rw [hS]
  refine ⟨rfl, rfl, rfl, rfl, ?_, ?_⟩
  · simp only [CustomVideoStreamSink.RequestSamples, hT]
  · simp only [CustomVideoStreamSink.RequestSamples, hT]
    simp [requestEvent, SAMPLE_QUEUE_HIWATER_THRESHOLD, List.replicate_succ]

/-- C7, witness: scenario C at the concrete Ready NV12 sink. -/
theorem C7_start_and_first_tick_witness :
    readySinkNV12.m_IsShutdown = false ∧
    ValidStateMatrix readySinkNV12.m_state .OpStart = true ∧
    readySinkNV12.m_cOutstandingSampleRequests = 0 ∧
    readySinkNV12.m_pEventQueue = some [] ∧
    ((readySinkNV12.Start 0).hr = .S_OK ∧
     (readySinkNV12.Start 0).sink.m_state = .State_Started ∧
     (readySinkNV12.Start 0).sink.m_pEventQueue = some ([] ++ [startedEvent]) ∧
     (readySinkNV12.Start 0).scheduledTick = true ∧
     ((readySinkNV12.Start 0).sink.RequestSamples).sink.m_cOutstandingSampleRequests =
       SAMPLE_QUEUE_HIWATER_THRESHOLD ∧
     ((readySinkNV12.Start 0).sink.RequestSamples).sink.m_pEventQueue =
       some ([] ++ [startedEvent] ++
         [requestEvent, requestEvent, requestEvent])) :=
  ⟨by decide, by decide, by decide, by decide,
   C7_start_and_first_tick readySinkNV12 [] 0 (by decide) (by decide)
     (by decide) (by decide)⟩

/-- C8: stream lookup. The claim says GetStreamSinkById with the fixed id
succeeds on a non-shut-down sink; in the code that path writes the stream
to the out parameter but then returns E_FAIL unconditionally (a slip —
the sibling GetStreamSinkByIndex returns the computed hr). The wrong-id,
index-0 and index-greater-than-0 behaviors are as claimed. -/
theorem C8_stream_lookup :
    (initialRenderer.GetStreamSinkById STREAM_ID).1 = .E_FAIL ∧
    (initialRenderer.GetStreamSinkById STREAM_ID).1 ≠ .S_OK ∧
    (initialRenderer.GetStreamSinkById STREAM_ID).2 = some initialStreamSink ∧
    (initialRenderer.GetStreamSinkById 2).1 = .MF_E_INVALIDSTREAMNUMBER ∧
    initialRenderer.GetStreamSinkByIndex 0 = (.S_OK, some initialStreamSink) ∧
    (initialRenderer.GetStreamSinkByIndex 1).1 = .MF_E_INVALIDINDEX := by
  refine ⟨by decide, by decide, by decide, by decide, by decide, by decide⟩

/-- C9: on a non-shut-down sink, GetMediaTypeByIndex fails with
MF_E_NO_MORE_TYPES exactly when the index reaches the fixed count reported
by GetMediaTypeCount, and below the count it returns a Video media type
with the catalog subtype at that index. -/
theorem C9_mediaTypeByIndex (s : CustomVideoStreamSink) (i : Nat)
    (hsd : s.m_IsShutdown = false) :
    ((s.GetMediaTypeByIndex i).1 = .MF_E_NO_MORE_TYPES ↔
      s_dwNumVideoFormats ≤ i) ∧
    (i < s_dwNumVideoFormats →
      s.GetMediaTypeByIndex i =
        (.S_OK, some { major := some .Video,
                       subtype := s_pVideoFormats.get? i })) ∧
    s.GetMediaTypeCount = (.S_OK, some s_dwNumVideoFormats) := by
  refine ⟨?_, ?_, ?_⟩
  · by_cases hi : s_dwNumVideoFormats ≤ i <;>
      simp [CustomVideoStreamSink.GetMediaTypeByIndex, hsd, hi]
  · intro hi
    simp [CustomVideoStreamSink.GetMediaTypeByIndex, hsd, Nat.not_le.mpr hi]
  · simp [CustomVideoStreamSink.GetMediaTypeCount, hsd]

/-- C9, witness at index 0 and at the first out-of-range index 19. -/
theorem C9_mediaTypeByIndex_witness :
    initialStreamSink.m_IsShutdown = false ∧
    (((initialStreamSink.GetMediaTypeByIndex 0).1 = .MF_E_NO_MORE_TYPES ↔
        s_dwNumVideoFormats ≤ 0) ∧
     (0 < s_dwNumVideoFormats →
       initialStreamSink.GetMediaTypeByIndex 0 =
         (.S_OK, some { major := some .Video,
                        subtype := s_pVideoFormats.get? 0 })) ∧
     initialStreamSink.GetMediaTypeCount = (.S_OK, some s_dwNumVideoFormats)) ∧
    (((initialStreamSink.GetMediaTypeByIndex 19).1 = .MF_E_NO_MORE_TYPES ↔
        s_dwNumVideoFormats ≤ 19) ∧
     (19 < s_dwNumVideoFormats →
       initialStreamSink.GetMediaTypeByIndex 19 =
         (.S_OK, some { major := some .Video,
                        subtype := s_pVideoFormats.get? 19 })) ∧
     initialStreamSink.GetMediaTypeCount = (.S_OK, some s_dwNumVideoFormats)) :=
  ⟨by decide, C9_mediaTypeByIndex initialStreamSink 0 (by decide),
   C9_mediaTypeByIndex initialStreamSink 19 (by decide)⟩

/-- C10: both Shutdown implementations return MF_E_SHUTDOWN on every
invocation — including the very first one that actually performs the
shutdown — so a caller testing for success always observes failure. -/
theorem C10_shutdown_never_succeeds (s : CustomVideoStreamSink)
    (r : CustomVideoRenderer) :
    (s.Shutdown).1 = .MF_E_SHUTDOWN ∧
    (r.Shutdown).1 = .MF_E_SHUTDOWN ∧
    SUCCEEDED .MF_E_SHUTDOWN = false :=
  ⟨rfl, rfl, rfl⟩
